import Mathlib

/-!
Verification of the collab-api-hub adapter layer: a shallow embedding of the
four channel adapters (GmailMailer, GoogleSheetsAppender, SlackNotifier,
TelegramNotifier) and the NotificationHub orchestrator, with theorems about
column addressing, defaults merging, constructor validation, error wrapping
and the compensation flow of processCustomerInquiry.
-/

namespace CollabApiHub

/-! ## Definitions -/

/-! ### GoogleSheetsAppender.getColumnName

The source loops `while (i > 0) { i--; result = chr(65 + i % 26) + result; i = floor(i / 26) }`
after clamping `i = Math.max(1, index)`.  We embed the loop as a recursion on
a fuel argument (the fuel equals the starting value, which bounds the number
of iterations), so that the function computes by `decide` / `rfl`. -/

def colCharsAux : Nat → Nat → List Char
  | _, 0 => []
  | 0, _ + 1 => []
  | fuel + 1, n + 1 => colCharsAux fuel (n / 26) ++ [Char.ofNat (65 + n % 26)]

def colChars (n : Nat) : List Char := colCharsAux n n

def getColumnName (index : Nat) : String := String.mk (colChars (max 1 index))

/-! Length-then-lexicographic strict order on the produced letter strings. -/

def lexLtB : List Char → List Char → Bool
  | _, [] => false
  | [], _ :: _ => true
  | a :: as, b :: bs => decide (a < b) || (a == b && lexLtB as bs)

def lenLexLtB (a b : List Char) : Bool :=
  decide (a.length < b.length) || (a.length == b.length && lexLtB a b)

/-! ### JS objects and spread merging

`SlackNotifier.send` builds `body = { ...(this.defaults ?? {}), ...payload }`;
`TelegramNotifier.send` builds
`body = { chat_id: payload.chat_id ?? this.defaultChatId, ...this.defaults, ...payload }`.
A JS object literal is embedded as the list of its key/value insertions in
order; a later insertion of the same key overwrites an earlier one, so lookup
takes the *last* binding.  Spreading two objects is list concatenation. -/

abbrev JsObj := List (String × String)

def jsGet : JsObj → String → Option String
  | [], _ => none
  | (k1, v) :: rest, k =>
    match jsGet rest k with
    | some w => some w
    | none => if k1 = k then some v else none

/-- Merge rule as the spec states it: the payload field when present, else
the default field, else absent. -/
def mergeSpec (p d : Option String) : Option String :=
  match p with
  | some v => some v
  | none => d

/-- Body built by SlackNotifier.send: spread of the defaults object (or an
empty object) followed by spread of the payload. -/
def slackBody (defaults : Option JsObj) (payload : JsObj) : JsObj :=
  (defaults.getD []) ++ payload

/-- Body built by TelegramNotifier.send: a chat_id entry (the payload value
when present, else the configured default chat id), then spread of the
defaults, then spread of the payload. -/
def telegramBody (defaultChatId : String) (defaults : Option JsObj)
    (payload : JsObj) : JsObj :=
  ("chat_id", (jsGet payload "chat_id").getD defaultChatId)
    :: ((defaults.getD []) ++ payload)

/-! ### GoogleSheetsAppender ranges (addRow / addRows) -/

/-- Cell values accepted by the sheet adapter: `string | number | boolean`. -/
inductive Cell
  | str : String → Cell
  | num : Int → Cell
  | boolean : Bool → Cell

/-- Helper rangeForWidth: endCol = getColumnName(Math.max(1, width)) and the
range is sheetName, bang, A1, colon, endCol, 1. -/
def rangeForWidth (sheetName : String) (width : Nat) : String :=
  sheetName ++ "!A1:" ++ getColumnName (max 1 width) ++ "1"

/-- JS `x || d` on a number: `0` is falsy. -/
def jsOrNat (n d : Nat) : Nat := if n = 0 then d else n

/-- The range addressed by `addRow(data, sheetName)`. -/
def addRowRange (data : List Cell) (sheetName : String) : String :=
  rangeForWidth sheetName data.length

/-- The range addressed by `addRows(rows, sheetName)`:
`maxLen = rows.reduce((m, r) => Math.max(m, r.length), 0) || 1`. -/
def addRowsRange (rows : List (List Cell)) (sheetName : String) : String :=
  rangeForWidth sheetName (jsOrNat (rows.foldl (fun m r => max m r.length) 0) 1)

/-- The maximum row length of a batch, as the spec words it. -/
def maxRowLen (rows : List (List Cell)) : Nat :=
  (rows.map List.length).foldr max 0

/-! ### Adapter constructors

Each constructor validates its required credential fields with JS truthiness
tests (`!s` is true exactly for the empty string, given the declared `string`
types) and throws before any client is built.  Throwing code is embedded in
the `Except String` monad: an `Except.error` is a thrown error. -/

inductive ValueMode
  | RAW
  | USER_ENTERED
deriving DecidableEq

structure SheetsOpts where
  sheetName : Option String
  valueInputOption : Option ValueMode
  scopes : Option (List String)

/-- Embedding of the privateKey.replace call over the global backslash-n
regex: scan left to right, replacing each literal backslash-n pair by a
newline. -/
def normalizeKeyChars : List Char → List Char
  | [] => []
  | [c] => [c]
  | c1 :: c2 :: rest =>
    if c1 = '\\' ∧ c2 = 'n' then '\n' :: normalizeKeyChars rest
    else c1 :: normalizeKeyChars (c2 :: rest)

def normalizeKey (s : String) : String := String.mk (normalizeKeyChars s.data)

structure SheetsState where
  credClientEmail : String
  credPrivateKey : String
  spreadsheetId : String
  defaultSheet : String
  valueInputOption : ValueMode
  scopes : List String

def googleSheetsAppenderCtor (clientEmail privateKey spreadsheetId : String)
    (opts : SheetsOpts) : Except String SheetsState :=
  if clientEmail = "" then .error "GoogleSheetsAppender: clientEmail is required"
  else if privateKey = "" then .error "GoogleSheetsAppender: privateKey is required"
  else if spreadsheetId = "" then .error "GoogleSheetsAppender: spreadsheetId is required"
  else .ok ⟨clientEmail, normalizeKey privateKey, spreadsheetId,
    opts.sheetName.getD "Sheet1", opts.valueInputOption.getD ValueMode.RAW,
    opts.scopes.getD ["https://www.googleapis.com/auth/spreadsheets"]⟩

structure GmailState where
  user : String
  pass : String

def gmailMailerCtor (user pass : String) : Except String GmailState :=
  if user = "" ∨ pass = "" then .error "GmailMailer: user and pass are required"
  else .ok ⟨user, pass⟩

structure SlackState where
  webhookUrl : String
  defaults : Option JsObj

def slackNotifierCtor (webhookUrl : String) (defaults : Option JsObj) :
    Except String SlackState :=
  if webhookUrl = "" then .error "SlackNotifier: webhookUrl is required"
  else .ok ⟨webhookUrl, defaults⟩

/-- Base-URL cleanup in the Telegram constructor: the replace regex is
anchored at the end and has no g flag, so it strips one trailing slash. -/
def stripTrailingSlash (s : String) : String :=
  if s.endsWith "/" then s.dropRight 1 else s

structure TelegramState where
  token : String
  defaultChatId : String
  defaults : Option JsObj
  baseURL : String

def telegramNotifierCtor (token chatId : String) (defaults : Option JsObj)
    (baseUrl : Option String) : Except String TelegramState :=
  if token = "" then .error "TelegramNotifier: token is required"
  else if chatId = "" then .error "TelegramNotifier: chatId is required"
  else .ok ⟨token, chatId, defaults,
    stripTrailingSlash (baseUrl.getD "https://api.telegram.org") ++ "/bot" ++ token⟩

/-! ### Private-key normalization (C10) -/

/-- Join segments with a separator, embedding how a key is assembled from
newline-free segments. -/
def joinSep (sep : List Char) : List (List Char) → List Char
  | [] => []
  | [s] => s
  | s :: s2 :: rest => s ++ sep ++ joinSep sep (s2 :: rest)

/-! ### GmailMailer.send envelope -/

structure MailOpts where
  toAddr : Option String
  fromAddr : Option String
  subject : Option String
  text : Option String
  html : Option String

structure MailEnvelope where
  fromAddr : String
  toAddr : String
  subject : String
  text : Option String
  html : Option String

/-- Envelope built by GmailMailer.send: from and to fall back to the
configured user, subject falls back to the fixed default string. -/
def buildMailOptions (user : String) (opts : MailOpts) : MailEnvelope :=
  ⟨opts.fromAddr.getD user, opts.toAddr.getD user,
    opts.subject.getD "Your Customer Information", opts.text, opts.html⟩

/-! ### verify()

`GoogleSheetsAppender.verify` wraps its metadata probe in try/catch and maps
any failure to `false`; `GmailMailer.verify` is
`async verify(): Promise<void> { await this.transporter.verify(); }` with no
catch, so a probe failure propagates to the caller.  The probe outcome is the
injected argument. -/

def googleSheetsVerify (probe : Except String Unit) : Except String Bool :=
  match probe with
  | .ok _ => .ok true
  | .error _ => .ok false

def gmailVerify (probe : Except String Unit) : Except String Unit :=
  match probe with
  | .ok _ => .ok ()
  | .error e => .error e

/-! ### Transport-error wrapping

Each send path catches the transport error and rebuilds a message with a
JS `||` chain: a structured field from the response body, else
`error.message`, else the string coercion of the thrown value, else a
generic fallback.  `||` treats the empty string (and an absent field) as
falsy. -/

structure JsError where
  respDataErrorMessage : Option String
  respDataStr : Option String
  respDataDescription : Option String
  message : Option String
  toStr : String
deriving DecidableEq

/-- A JS `||` chain over possibly-absent strings with a final default. -/
def jsOrChain : List (Option String) → String → String
  | [], d => d
  | o :: rest, d =>
    match o with
    | some s => if s = "" then jsOrChain rest d else s
    | none => jsOrChain rest d

/-- Message chain of the sheets adapter: the structured response-body error
message, else the error message, else the string coercion, else the generic
fallback. -/
def sheetsErrorMessage (e : JsError) : String :=
  jsOrChain [e.respDataErrorMessage, e.message, some e.toStr]
    "Unknown GoogleSheets API error"

def sheetsAddRowResult (transport : Except JsError String) :
    Except String String :=
  match transport with
  | .ok r => .ok r
  | .error e => .error ("Google Sheets API error: " ++ sheetsErrorMessage e)

/-- Message chain of the chat-webhook adapter: the stringified response body
when truthy, else the error message, else the string coercion, else the
generic fallback. -/
def slackErrorMessage (e : JsError) : String :=
  jsOrChain [e.respDataStr, e.message, some e.toStr] "Unknown Slack API error"

def slackSendResult (transport : Except JsError String) : Except String String :=
  match transport with
  | .ok r => .ok r
  | .error e => .error ("Slack notification failed: " ++ slackErrorMessage e)

/-- Message chain of the bot adapter: the response-body description field,
else the error message, else the string coercion, else the generic
fallback. -/
def telegramErrorMessage (e : JsError) : String :=
  jsOrChain [e.respDataDescription, e.message, some e.toStr]
    "Unknown Telegram API error"

def telegramSendResult (transport : Except JsError String) :
    Except String String :=
  match transport with
  | .ok r => .ok r
  | .error e => .error ("Telegram notification failed: " ++ telegramErrorMessage e)

/-- An absent or empty string field, i.e. one that JS `||` skips. -/
def falsyO (o : Option String) : Prop := o = none ∨ o = some ""

/-! ### TelegramNotifier.validateTokenFormat

The source tests the stored token against `/^\d+:[A-Za-z0-9_-]{20,}$/` and
returns the boolean result; no network call is made.  The anchored regex is
embedded structurally: a maximal non-empty digit prefix, a colon, then at
least 20 characters from the class (which excludes the colon, so backtracking
cannot produce any other decomposition). -/

def tokenTailChar (c : Char) : Bool := c.isAlphanum || c = '_' || c = '-'

def validateTokenFormat (token : String) : Bool :=
  match token.data.dropWhile Char.isDigit with
  | c :: tail =>
    decide (c = ':') && !(token.data.takeWhile Char.isDigit).isEmpty &&
      decide (20 ≤ tail.length) && tail.all tokenTailChar
  | [] => false

/-! ### NotificationHub.processCustomerInquiry

The hub performs four sequential steps inside one try block — sheet append,
confirmation mail, chat post, bot alert — and in the catch block sends one
compensating bot message and re-throws.  The outcome of each external call is
injected through `HubEnv`; the trace of attempted calls is returned together
with the result, so that compensation counting and the absence of rollback
are visible. -/

inductive HubAction
  | sheetAppend (row : List String)
  | mailSend (toAddr : String)
  | slackPost (text : String)
  | telegramPost (text : String)
deriving DecidableEq

structure HubEnv where
  now : String
  sheetRes : Except String Unit
  gmailRes : Except String Unit
  slackRes : Except String Unit
  telegramRes : Except String Unit
  compRes : Except String Unit

/-- The compensating bot message:
`❌ *Error Processing Inquiry*\n\nCustomer: ${name} (${email})\nError: ${error.message}`. -/
def compMessage (name email errMsg : String) : String :=
  "❌ *Error Processing Inquiry*\n\nCustomer: " ++ name ++ " (" ++ email
    ++ ")\nError: " ++ errMsg

/-- The step-4 bot alert text. -/
def telegramInquiryText (name email message : String) : String :=
  "🔔 *New Customer Inquiry*\n\n*Name:* " ++ name ++ "\n*Email:* " ++ email
    ++ "\n*Message:* " ++ message ++ "\n\n_Confirmation email sent automatically_"

/-- Result seen by the caller after the catch block: the original error when
the compensating send returns, the compensating-send error when that send
itself throws (the `throw error` statement is then never reached). -/
def compResult (env : HubEnv) (e : String) : Except String String :=
  match env.compRes with
  | .ok _ => .error e
  | .error e2 => .error e2

def hubCatch (env : HubEnv) (name email : String) (done : List HubAction)
    (e : String) : List HubAction × Except String String :=
  (done ++ [HubAction.telegramPost (compMessage name email e)], compResult env e)

def processCustomerInquiry (env : HubEnv) (name email message : String) :
    List HubAction × Except String String :=
  let a1 := HubAction.sheetAppend [env.now, name, email, message]
  let a2 := HubAction.mailSend email
  let a3 := HubAction.slackPost "New customer inquiry received!"
  let a4 := HubAction.telegramPost (telegramInquiryText name email message)
  match env.sheetRes with
  | .error e => hubCatch env name email [a1] e
  | .ok _ =>
    match env.gmailRes with
    | .error e => hubCatch env name email [a1, a2] e
    | .ok _ =>
      match env.slackRes with
      | .error e => hubCatch env name email [a1, a2, a3] e
      | .ok _ =>
        match env.telegramRes with
        | .error e => hubCatch env name email [a1, a2, a3, a4] e
        | .ok _ => ([a1, a2, a3, a4], .ok "Inquiry processed successfully")

/-! ## Theorems -/

theorem colCharsAux_fuel : ∀ (f g n : Nat), n ≤ f → n ≤ g →
    colCharsAux f n = colCharsAux g n := by
  intro f
  induction f with
  | zero =>
    intro g n hf _
    have hn : n = 0 := Nat.le_zero.mp hf
    subst hn
    cases g <;> rfl
  | succ f IH =>
    intro g n hf hg
    cases n with
    | zero => cases g <;> rfl
    | succ m =>
      cases g with
      | zero => omega
      | succ g =>
        show colCharsAux f (m / 26) ++ _ = colCharsAux g (m / 26) ++ _
        have h1 : m / 26 ≤ f := le_trans (Nat.div_le_self m 26) (by omega)
        have h2 : m / 26 ≤ g := le_trans (Nat.div_le_self m 26) (by omega)
        rw [IH g (m / 26) h1 h2]

theorem colChars_succ (m : Nat) :
    colChars (m + 1) = colChars (m / 26) ++ [Char.ofNat (65 + m % 26)] := by
  show colCharsAux m (m / 26) ++ _ = colCharsAux (m / 26) (m / 26) ++ _
  rw [colCharsAux_fuel m (m / 26) (m / 26) (Nat.div_le_self m 26) le_rfl]

theorem colChars_length_pos {n : Nat} (h : 1 ≤ n) : 0 < (colChars n).length := by
  obtain ⟨m, rfl⟩ : ∃ m, n = m + 1 := ⟨n - 1, by omega⟩
  rw [colChars_succ]
  simp

theorem lexLtB_append {as : List Char} : ∀ {bs : List Char} (x y : Char),
    as.length = bs.length → lexLtB as bs = true →
    lexLtB (as ++ [x]) (bs ++ [y]) = true := by
  induction as with
  | nil =>
    intro bs x y hlen h
    cases bs with
    | nil => simp [lexLtB] at h
    | cons b bs => simp at hlen
  | cons a as IH =>
    intro bs x y hlen h
    cases bs with
    | nil => simp at hlen
    | cons b bs =>
      simp only [List.cons_append, lexLtB, Bool.or_eq_true, Bool.and_eq_true] at h ⊢
      rcases h with h | ⟨hab, hrec⟩
      · exact Or.inl h
      · exact Or.inr ⟨hab, IH x y (by simpa using hlen) hrec⟩

theorem lexLtB_append_lt (as : List Char) {x y : Char} (h : x < y) :
    lexLtB (as ++ [x]) (as ++ [y]) = true := by
  induction as with
  | nil => simp [lexLtB, h]
  | cons a as IH => simp [lexLtB, IH]

theorem lenLexLtB_append {as bs : List Char} (x y : Char)
    (h : lenLexLtB as bs = true) : lenLexLtB (as ++ [x]) (bs ++ [y]) = true := by
  simp only [lenLexLtB, Bool.or_eq_true, decide_eq_true_eq, Bool.and_eq_true,
    beq_iff_eq, List.length_append, List.length_cons, List.length_nil] at h ⊢
  rcases h with h | ⟨hlen, hlex⟩
  · exact Or.inl (by omega)
  · exact Or.inr ⟨by omega, lexLtB_append x y hlen hlex⟩

theorem charOfNat_lt_of_lt {a b : Nat} (hab : a < b) (hb : b < 26) :
    Char.ofNat (65 + a) < Char.ofNat (65 + b) := by
  have h : ∀ x y : Fin 26, x.val < y.val →
      Char.ofNat (65 + x.val) < Char.ofNat (65 + y.val) := by decide
  exact h ⟨a, by omega⟩ ⟨b, hb⟩ hab

theorem colChars_strictMono : ∀ j i : Nat, 1 ≤ i → i < j →
    lenLexLtB (colChars i) (colChars j) = true := by
  intro j
  induction j using Nat.strong_induction_on with
  | _ j IH =>
    intro i hi hij
    obtain ⟨m, rfl⟩ : ∃ m, i = m + 1 := ⟨i - 1, by omega⟩
    obtain ⟨k, rfl⟩ : ∃ k, j = k + 1 := ⟨j - 1, by omega⟩
    rw [colChars_succ, colChars_succ]
    have hmk : m < k := by omega
    have hq : m / 26 ≤ k / 26 := Nat.div_le_div_right (le_of_lt hmk)
    rcases eq_or_lt_of_le hq with hqe | hqlt
    · -- same quotient: the last characters differ, lengths agree
      have hr : m % 26 < k % 26 := by omega
      rw [hqe]
      simp only [lenLexLtB, Bool.or_eq_true, Bool.and_eq_true, beq_iff_eq]
      exact Or.inr ⟨by simp, lexLtB_append_lt _
        (charOfNat_lt_of_lt hr (Nat.mod_lt _ (by norm_num)))⟩
    · rcases Nat.eq_zero_or_pos (m / 26) with hz | hpos
      · -- quotient of the smaller index is zero: strictly shorter output
        rw [hz]
        have hlen := colChars_length_pos (by omega : 1 ≤ k / 26)
        simp only [lenLexLtB, Bool.or_eq_true, decide_eq_true_eq,
          List.length_append, List.length_cons, List.length_nil]
        have h0 : (colChars 0).length = 0 := rfl
        exact Or.inl (by omega)
      · -- both quotients positive: recurse, then append one character each
        have hlt := IH (k / 26) (by omega) (m / 26) hpos hqlt
        exact lenLexLtB_append _ _ hlt

theorem jsGet_append (A B : JsObj) (k : String) :
    jsGet (A ++ B) k = mergeSpec (jsGet B k) (jsGet A k) := by
  induction A with
  | nil => cases h : jsGet B k <;> simp [jsGet, mergeSpec, h]
  | cons p A IH =>
    obtain ⟨k1, v⟩ := p
    cases hB : jsGet B k <;> cases hA : jsGet A k <;>
      simp [jsGet, mergeSpec, IH, hB, hA]

/-- C3: defaults merging.  For the chat-webhook adapter the effective payload
at every key is the call payload value when present, else the adapter default,
else absent; for the bot adapter the same holds with the configured default
conversation id acting as an additional lowest-priority default for the
`chat_id` key. -/
theorem adapter_defaults_merging (c : String) (D P : JsObj) (k : String) :
    jsGet (slackBody (some D) P) k = mergeSpec (jsGet P k) (jsGet D k) ∧
    jsGet (telegramBody c (some D) P) k =
      mergeSpec (jsGet P k) (mergeSpec (jsGet D k)
        (if k = "chat_id" then some c else none)) := by
  constructor
  · exact jsGet_append D P k
  · show jsGet (("chat_id", (jsGet P "chat_id").getD c) :: (D ++ P)) k = _
    simp only [jsGet, jsGet_append]
    cases hP : jsGet P k with
    | some w => simp [mergeSpec]
    | none =>
      cases hD : jsGet D k with
      | some w => simp [mergeSpec]
      | none =>
        by_cases hk : k = "chat_id"
        · subst hk
          simp [mergeSpec, hP]
        · have hk2 : ¬"chat_id" = k := fun h => hk h.symm
          simp [mergeSpec, hk, hk2]

theorem foldl_max_cells (rows : List (List Cell)) : ∀ a : Nat,
    rows.foldl (fun m r => max m r.length) a = max a (maxRowLen rows) := by
  induction rows with
  | nil => intro a; simp [maxRowLen]
  | cons r rows IH =>
    intro a
    simp only [List.foldl_cons, IH, maxRowLen, List.map_cons, List.foldr_cons]
    omega

theorem max_one_jsOrNat (m : Nat) : max 1 (jsOrNat m 1) = max 1 m := by
  unfold jsOrNat
  split <;> omega

/-- C4: the range addressed by `addRows` ends at the column for the maximum
row length of the batch (minimum 1), the range addressed by `addRow` ends at
the column for the row length (minimum 1), both of the form
`sheetName!A1:<col>1`; in particular `addRows([["a","b"],["c","d","e"]])`
computes a range ending at column "C". -/
theorem addRows_range_width (rows : List (List Cell)) (row : List Cell)
    (s : String) :
    addRowsRange rows s = s ++ "!A1:" ++ getColumnName (max 1 (maxRowLen rows)) ++ "1" ∧
    addRowRange row s = s ++ "!A1:" ++ getColumnName (max 1 row.length) ++ "1" ∧
    addRowsRange [[Cell.str "a", Cell.str "b"],
      [Cell.str "c", Cell.str "d", Cell.str "e"]] "Sheet1" = "Sheet1!A1:C1" := by
  refine ⟨?_, rfl, by decide⟩
  show rangeForWidth s _ = _
  unfold rangeForWidth
  rw [foldl_max_cells, Nat.zero_max, max_one_jsOrNat]

/-- C5: every adapter constructor throws exactly when some required credential
field is missing or empty, and succeeds when all required fields are
non-empty.  The checks are the first statements of each constructor, before
any transport client is built. -/
theorem ctor_validation (u p ce pk sid wh tok cid : String) (sOpts : SheetsOpts)
    (sd td : Option JsObj) (tb : Option String) :
    ((∃ st, gmailMailerCtor u p = .ok st) ↔ (u ≠ "" ∧ p ≠ "")) ∧
    ((∃ st, googleSheetsAppenderCtor ce pk sid sOpts = .ok st) ↔
      (ce ≠ "" ∧ pk ≠ "" ∧ sid ≠ "")) ∧
    ((∃ st, slackNotifierCtor wh sd = .ok st) ↔ wh ≠ "") ∧
    ((∃ st, telegramNotifierCtor tok cid td tb = .ok st) ↔
      (tok ≠ "" ∧ cid ≠ "")) := by
  refine ⟨?_, ?_, ?_, ?_⟩
  · unfold gmailMailerCtor
    split <;> rename_i h
    · constructor
      · rintro ⟨st, hst⟩; cases hst
      · rintro ⟨hu, hp⟩
        rcases h with h | h
        · exact absurd h hu
        · exact absurd h hp
    · push_neg at h
      simp [h]
  · unfold googleSheetsAppenderCtor
    split <;> rename_i h1
    · constructor
      · rintro ⟨st, hst⟩; cases hst
      · rintro ⟨hc, -, -⟩; exact absurd h1 hc
    · split <;> rename_i h2
      · constructor
        · rintro ⟨st, hst⟩; cases hst
        · rintro ⟨-, hc, -⟩; exact absurd h2 hc
      · split <;> rename_i h3
        · constructor
          · rintro ⟨st, hst⟩; cases hst
          · rintro ⟨-, -, hc⟩; exact absurd h3 hc
        · simp [h1, h2, h3]
  · unfold slackNotifierCtor
    split <;> rename_i h
    · constructor
      · rintro ⟨st, hst⟩; cases hst
      · intro hc; exact absurd h hc
    · simp [h]
  · unfold telegramNotifierCtor
    split <;> rename_i h1
    · constructor
      · rintro ⟨st, hst⟩; cases hst
      · rintro ⟨hc, -⟩; exact absurd h1 hc
    · split <;> rename_i h2
      · constructor
        · rintro ⟨st, hst⟩; cases hst
        · rintro ⟨-, hc⟩; exact absurd h2 hc
      · simp [h1, h2]

theorem normalizeKeyChars_no_backslash {l : List Char} (h : '\\' ∉ l) :
    normalizeKeyChars l = l := by
  induction l with
  | nil => rfl
  | cons c rest IH =>
    have hc : c ≠ '\\' := fun hc => h (by simp [hc])
    have hrest : '\\' ∉ rest := fun hm => h (by simp [hm])
    cases rest with
    | nil => rfl
    | cons c2 rest2 =>
      show (if c = '\\' ∧ c2 = 'n' then _ else _) = _
      rw [if_neg (fun hand => hc hand.1)]
      rw [IH hrest]

theorem normalizeKeyChars_append {l1 : List Char} (l2 : List Char)
    (h : '\\' ∉ l1) :
    normalizeKeyChars (l1 ++ '\\' :: 'n' :: l2) =
      l1 ++ '\n' :: normalizeKeyChars l2 := by
  induction l1 with
  | nil =>
    simp [normalizeKeyChars]
  | cons a l1 IH =>
    have ha : a ≠ '\\' := fun hc => h (by simp [hc])
    have hl1 : '\\' ∉ l1 := fun hm => h (by simp [hm])
    cases l1 with
    | nil =>
      simp [normalizeKeyChars, ha]
    | cons b l1 =>
      have h2 := IH hl1
      simp only [List.cons_append] at h2 ⊢
      simp [normalizeKeyChars, ha, h2]

theorem normalizeKeyChars_joinSep : ∀ segs : List (List Char),
    (∀ s ∈ segs, '\\' ∉ s) →
    normalizeKeyChars (joinSep ['\\', 'n'] segs) = joinSep ['\n'] segs := by
  intro segs
  induction segs with
  | nil => intro _; rfl
  | cons s rest IH =>
    intro h
    cases rest with
    | nil => exact normalizeKeyChars_no_backslash (h s (by simp))
    | cons s2 rest2 =>
      have hnb : '\\' ∉ s := h s (by simp)
      have h2 := IH (fun x hx => h x (by simp [hx]))
      simp only [joinSep, List.append_assoc, List.cons_append, List.nil_append]
      rw [normalizeKeyChars_append _ hnb, h2]

/-- C10: the sheet-adapter constructor normalizes the private key by replacing
every literal backslash-n escape with a real newline (stated for keys made of
backslash-free segments joined by the escape), and stores the other
constructor arguments unchanged. -/
theorem sheets_ctor_normalizes_key (ce pk sid : String) (opts : SheetsOpts)
    (segs : List (List Char)) (hce : ce ≠ "") (hpk : pk ≠ "") (hsid : sid ≠ "")
    (hsegs : ∀ s ∈ segs, '\\' ∉ s)
    (hdecomp : pk.data = joinSep ['\\', 'n'] segs) :
    ∃ st, googleSheetsAppenderCtor ce pk sid opts = .ok st ∧
      st.credPrivateKey = String.mk (joinSep ['\n'] segs) ∧
      st.credClientEmail = ce ∧ st.spreadsheetId = sid ∧
      st.defaultSheet = opts.sheetName.getD "Sheet1" ∧
      st.valueInputOption = opts.valueInputOption.getD ValueMode.RAW := by
  refine ⟨⟨ce, normalizeKey pk, sid, opts.sheetName.getD "Sheet1",
    opts.valueInputOption.getD ValueMode.RAW,
    opts.scopes.getD ["https://www.googleapis.com/auth/spreadsheets"]⟩,
    ?_, ?_, rfl, rfl, rfl, rfl⟩
  · unfold googleSheetsAppenderCtor
    rw [if_neg hce, if_neg hpk, if_neg hsid]
  · show normalizeKey pk = _
    unfold normalizeKey
    rw [hdecomp, normalizeKeyChars_joinSep segs hsegs]

/-- Witness for C10: a two-segment key `"KEY\\nEND"` normalizes to
`"KEY\nEND"` while the other fields are stored unchanged. -/
theorem sheets_ctor_normalizes_key_witness :
    ∃ st, googleSheetsAppenderCtor "svc@x.iam" "KEY\\nEND" "sheet-id"
        ⟨none, none, none⟩ = .ok st ∧
      st.credPrivateKey = String.mk (joinSep ['\n']
        [['K', 'E', 'Y'], ['E', 'N', 'D']]) ∧
      st.credClientEmail = "svc@x.iam" ∧ st.spreadsheetId = "sheet-id" ∧
      st.defaultSheet = (none : Option String).getD "Sheet1" ∧
      st.valueInputOption = (none : Option ValueMode).getD ValueMode.RAW :=
  sheets_ctor_normalizes_key "svc@x.iam" "KEY\\nEND" "sheet-id" ⟨none, none, none⟩
    [['K', 'E', 'Y'], ['E', 'N', 'D']] (by decide) (by decide) (by decide)
    (by decide) (by decide)

/-- C7: the mail envelope defaults `from` and `to` to the configured sender
identity and `subject` to the fixed default string when omitted, and keeps
supplied values; in particular `send({to:"x@y.com"})` with sender identity
`me@z.com` yields `from = "me@z.com"`. -/
theorem gmail_send_envelope_defaults (user : String) (opts : MailOpts) :
    (∀ f, opts.fromAddr = some f → (buildMailOptions user opts).fromAddr = f) ∧
    (opts.fromAddr = none → (buildMailOptions user opts).fromAddr = user) ∧
    (∀ t, opts.toAddr = some t → (buildMailOptions user opts).toAddr = t) ∧
    (opts.toAddr = none → (buildMailOptions user opts).toAddr = user) ∧
    (∀ s, opts.subject = some s → (buildMailOptions user opts).subject = s) ∧
    (opts.subject = none →
      (buildMailOptions user opts).subject = "Your Customer Information") ∧
    (buildMailOptions "me@z.com" ⟨some "x@y.com", none, none, none, none⟩).fromAddr
      = "me@z.com" := by
  refine ⟨?_, ?_, ?_, ?_, ?_, ?_, rfl⟩
  · intro v hv; simp [buildMailOptions, hv]
  · intro hv; simp [buildMailOptions, hv]
  · intro v hv; simp [buildMailOptions, hv]
  · intro hv; simp [buildMailOptions, hv]
  · intro v hv; simp [buildMailOptions, hv]
  · intro hv; simp [buildMailOptions, hv]

/-- Witness for C7: the scenario from the spec, derived from the theorem. -/
theorem gmail_send_envelope_defaults_witness :
    (buildMailOptions "me@z.com" ⟨some "x@y.com", none, none, none, none⟩).fromAddr
        = "me@z.com" ∧
      (buildMailOptions "me@z.com" ⟨some "x@y.com", none, none, none, none⟩).toAddr
        = "x@y.com" :=
  ⟨(gmail_send_envelope_defaults "me@z.com"
      ⟨some "x@y.com", none, none, none, none⟩).2.1 rfl,
    (gmail_send_envelope_defaults "me@z.com"
      ⟨some "x@y.com", none, none, none, none⟩).2.2.1 "x@y.com" rfl⟩

/-- Counterexample to C1 as stated: when its probe fails, the mail adapter
verify() re-raises the probe error to the caller rather than returning a
non-healthy value. -/
theorem gmail_verify_raises :
    gmailVerify (Except.error "ECONNREFUSED") = Except.error "ECONNREFUSED" ∧
      (Except.error "ECONNREFUSED" : Except String Unit) ≠ Except.ok () :=
  ⟨rfl, fun h => Except.noConfusion h⟩

/-- C1 amended: the sheet adapter verify() never throws and maps every probe
failure to `false`, while the mail adapter verify() has no catch and
propagates every probe failure to the caller. -/
theorem verify_error_policy (p : Except String Unit) (e : String) :
    (∃ b, googleSheetsVerify p = Except.ok b) ∧
    googleSheetsVerify (Except.error e) = Except.ok false ∧
    googleSheetsVerify (Except.ok ()) = Except.ok true ∧
    gmailVerify (Except.error e) = Except.error e := by
  refine ⟨?_, rfl, rfl, rfl⟩
  cases p with
  | ok u => exact ⟨true, rfl⟩
  | error err => exact ⟨false, rfl⟩

theorem jsOrChain3_first {a : Option String} (b c : Option String) (d : String)
    {s : String} (hs : s ≠ "") (ha : a = some s) :
    jsOrChain [a, b, c] d = s := by
  subst ha
  simp [jsOrChain, hs]

theorem jsOrChain3_falsy_head {a : Option String} (b c : Option String)
    (d : String) (ha : falsyO a) :
    jsOrChain [a, b, c] d = jsOrChain [b, c] d := by
  rcases ha with ha | ha <;> subst ha <;> simp [jsOrChain]

theorem jsOrChain2_first {b : Option String} (c : Option String) (d : String)
    {s : String} (hs : s ≠ "") (hb : b = some s) :
    jsOrChain [b, c] d = s := by
  subst hb
  simp [jsOrChain, hs]

theorem jsOrChain2_falsy_head {b : Option String} (c : Option String)
    (d : String) (hb : falsyO b) :
    jsOrChain [b, c] d = jsOrChain [c] d := by
  rcases hb with hb | hb <;> subst hb <;> simp [jsOrChain]

theorem jsOrChain1_some (d : String) (s : String) :
    jsOrChain [some s] d = if s = "" then d else s := by
  simp [jsOrChain]

/-- Counterexample to C8 as stated: a thrown value with no structured body
field and no `message` but a non-empty string coercion (for example a thrown
plain string) is wrapped with that coercion, not with the generic fallback
that the claim predicts. -/
theorem transport_error_extra_tier :
    sheetsAddRowResult (Except.error ⟨none, none, none, none, "CustomThrown"⟩)
        = Except.error "Google Sheets API error: CustomThrown" ∧
      (Except.error "Google Sheets API error: CustomThrown" : Except String String)
        ≠ Except.error "Google Sheets API error: Unknown GoogleSheets API error" := by
  refine ⟨rfl, fun h => ?_⟩
  injection h with h2
  exact absurd h2 (by decide)

/-- C8 amended: every failed send throws a TransportError whose message is the
channel prefix followed by the structured response-body field when truthy,
else the transport error message when non-empty, else the string coercion of
the thrown value when non-empty, else a generic fallback; successful calls
pass the response through, and the error propagates (there is no retry). -/
theorem transport_error_wrapping (e : JsError) (r s : String) (hs : s ≠ "") :
    (e.respDataErrorMessage = some s →
      sheetsAddRowResult (Except.error e)
        = Except.error ("Google Sheets API error: " ++ s)) ∧
    (falsyO e.respDataErrorMessage → e.message = some s →
      sheetsAddRowResult (Except.error e)
        = Except.error ("Google Sheets API error: " ++ s)) ∧
    (falsyO e.respDataErrorMessage → falsyO e.message → e.toStr = "" →
      sheetsAddRowResult (Except.error e)
        = Except.error "Google Sheets API error: Unknown GoogleSheets API error") ∧
    (sheetsAddRowResult (Except.ok r) = Except.ok r) ∧
    (e.respDataStr = some s →
      slackSendResult (Except.error e)
        = Except.error ("Slack notification failed: " ++ s)) ∧
    (falsyO e.respDataStr → e.message = some s →
      slackSendResult (Except.error e)
        = Except.error ("Slack notification failed: " ++ s)) ∧
    (falsyO e.respDataStr → falsyO e.message → e.toStr = "" →
      slackSendResult (Except.error e)
        = Except.error "Slack notification failed: Unknown Slack API error") ∧
    (slackSendResult (Except.ok r) = Except.ok r) ∧
    (e.respDataDescription = some s →
      telegramSendResult (Except.error e)
        = Except.error ("Telegram notification failed: " ++ s)) ∧
    (falsyO e.respDataDescription → e.message = some s →
      telegramSendResult (Except.error e)
        = Except.error ("Telegram notification failed: " ++ s)) ∧
    (falsyO e.respDataDescription → falsyO e.message → e.toStr = "" →
      telegramSendResult (Except.error e)
        = Except.error "Telegram notification failed: Unknown Telegram API error") ∧
    (telegramSendResult (Except.ok r) = Except.ok r) ∧
    (falsyO e.respDataErrorMessage → falsyO e.message → e.toStr ≠ "" →
      sheetsAddRowResult (Except.error e)
        = Except.error ("Google Sheets API error: " ++ e.toStr)) ∧
    (falsyO e.respDataStr → falsyO e.message → e.toStr ≠ "" →
      slackSendResult (Except.error e)
        = Except.error ("Slack notification failed: " ++ e.toStr)) ∧
    (falsyO e.respDataDescription → falsyO e.message → e.toStr ≠ "" →
      telegramSendResult (Except.error e)
        = Except.error ("Telegram notification failed: " ++ e.toStr)) := by
  refine ⟨?_, ?_, ?_, rfl, ?_, ?_, ?_, rfl, ?_, ?_, ?_, rfl, ?_, ?_, ?_⟩
  · intro h1
    show Except.error ("Google Sheets API error: " ++ sheetsErrorMessage e) = _
    rw [sheetsErrorMessage, jsOrChain3_first _ _ _ hs h1]
  · intro h1 h2
    show Except.error ("Google Sheets API error: " ++ sheetsErrorMessage e) = _
    rw [sheetsErrorMessage, jsOrChain3_falsy_head _ _ _ h1,
      jsOrChain2_first _ _ hs h2]
  · intro h1 h2 h3
    show Except.error ("Google Sheets API error: " ++ sheetsErrorMessage e) = _
    rw [sheetsErrorMessage, jsOrChain3_falsy_head _ _ _ h1,
      jsOrChain2_falsy_head _ _ h2, jsOrChain1_some, if_pos h3]
    rfl
  · intro h1
    show Except.error ("Slack notification failed: " ++ slackErrorMessage e) = _
    rw [slackErrorMessage, jsOrChain3_first _ _ _ hs h1]
  · intro h1 h2
    show Except.error ("Slack notification failed: " ++ slackErrorMessage e) = _
    rw [slackErrorMessage, jsOrChain3_falsy_head _ _ _ h1,
      jsOrChain2_first _ _ hs h2]
  · intro h1 h2 h3
    show Except.error ("Slack notification failed: " ++ slackErrorMessage e) = _
    rw [slackErrorMessage, jsOrChain3_falsy_head _ _ _ h1,
      jsOrChain2_falsy_head _ _ h2, jsOrChain1_some, if_pos h3]
    rfl
  · intro h1
    show Except.error ("Telegram notification failed: " ++ telegramErrorMessage e) = _
    rw [telegramErrorMessage, jsOrChain3_first _ _ _ hs h1]
  · intro h1 h2
    show Except.error ("Telegram notification failed: " ++ telegramErrorMessage e) = _
    rw [telegramErrorMessage, jsOrChain3_falsy_head _ _ _ h1,
      jsOrChain2_first _ _ hs h2]
  · intro h1 h2 h3
    show Except.error ("Telegram notification failed: " ++ telegramErrorMessage e) = _
    rw [telegramErrorMessage, jsOrChain3_falsy_head _ _ _ h1,
      jsOrChain2_falsy_head _ _ h2, jsOrChain1_some, if_pos h3]
    rfl
  · intro h1 h2 h3
    show Except.error ("Google Sheets API error: " ++ sheetsErrorMessage e) = _
    rw [sheetsErrorMessage, jsOrChain3_falsy_head _ _ _ h1,
      jsOrChain2_falsy_head _ _ h2, jsOrChain1_some, if_neg h3]
  · intro h1 h2 h3
    show Except.error ("Slack notification failed: " ++ slackErrorMessage e) = _
    rw [slackErrorMessage, jsOrChain3_falsy_head _ _ _ h1,
      jsOrChain2_falsy_head _ _ h2, jsOrChain1_some, if_neg h3]
  · intro h1 h2 h3
    show Except.error ("Telegram notification failed: " ++ telegramErrorMessage e) = _
    rw [telegramErrorMessage, jsOrChain3_falsy_head _ _ _ h1,
      jsOrChain2_falsy_head _ _ h2, jsOrChain1_some, if_neg h3]

/-- Witness for C8: a failed call with a structured response-body error is
wrapped with the channel prefix and the structured message. -/
theorem transport_error_wrapping_witness :
    sheetsAddRowResult (Except.error ⟨some "quota exceeded", none, none,
        some "Request failed", "[object Object]"⟩)
      = Except.error "Google Sheets API error: quota exceeded" :=
  (transport_error_wrapping ⟨some "quota exceeded", none, none,
      some "Request failed", "[object Object]"⟩ "resp" "quota exceeded"
    (by decide)).1 rfl

theorem takeWhile_all_append (p : Char → Bool) :
    ∀ (ds : List Char) (r : Char) (rest : List Char),
    (∀ c ∈ ds, p c = true) → p r = false →
    (ds ++ r :: rest).takeWhile p = ds ∧ (ds ++ r :: rest).dropWhile p = r :: rest := by
  intro ds
  induction ds with
  | nil =>
    intro r rest _ hr
    simp [List.takeWhile_cons, List.dropWhile_cons, hr]
  | cons a ds IH =>
    intro r rest hds hr
    have ha : p a = true := hds a (by simp)
    have h2 := IH r rest (fun c hc => hds c (by simp [hc])) hr
    simp [List.takeWhile_cons, List.dropWhile_cons, ha, h2.1, h2.2]

/-- C9: validateTokenFormat is a pure pattern check: it accepts exactly the
strings made of one or more digits, a colon, and at least 20 characters from
the alphanumeric/underscore/hyphen class, and rejects everything else; in
particular it accepts `123456789:` followed by 20 such characters and rejects
shorter or malformed tokens. -/
theorem validateTokenFormat_pure_pattern (t : String) :
    (validateTokenFormat t = true ↔
      ∃ ds tail : List Char, t.data = ds ++ ':' :: tail ∧ ds ≠ [] ∧
        (∀ c ∈ ds, c.isDigit = true) ∧ 20 ≤ tail.length ∧
        (∀ c ∈ tail, tokenTailChar c = true)) ∧
    validateTokenFormat "123456789:ABCDEFGHIJabcdefghij" = true ∧
    validateTokenFormat "123456789:ABCDEFGHIJabcdefghi" = false ∧
    validateTokenFormat "123456789ABCDEFGHIJabcdefghij" = false ∧
    validateTokenFormat ":ABCDEFGHIJabcdefghij" = false := by
  refine ⟨⟨?_, ?_⟩, by decide, by decide, by decide, by decide⟩
  · intro h
    unfold validateTokenFormat at h
    cases hd : t.data.dropWhile Char.isDigit with
    | nil => rw [hd] at h; cases h
    | cons c tail =>
      rw [hd] at h
      simp only [Bool.and_eq_true, decide_eq_true_eq, Bool.not_eq_true',
        List.isEmpty_eq_false, List.all_eq_true] at h
      obtain ⟨⟨⟨hc, hne⟩, hlen⟩, hall⟩ := h
      subst hc
      refine ⟨t.data.takeWhile Char.isDigit, tail, ?_, hne, ?_, hlen, hall⟩
      · rw [← hd, List.takeWhile_append_dropWhile]
      · intro ch hch
        exact List.mem_takeWhile_imp hch
  · rintro ⟨ds, tail, hdecomp, hne, hds, hlen, hall⟩
    have hsplit := takeWhile_all_append Char.isDigit ds ':' tail hds (by decide)
    unfold validateTokenFormat
    rw [hdecomp, hsplit.2, hsplit.1]
    simp only [Bool.and_eq_true, decide_eq_true_eq, Bool.not_eq_true',
      List.isEmpty_eq_false, List.all_eq_true]
    exact ⟨⟨⟨trivial, hne⟩, hlen⟩, hall⟩

/-- Witness for C9: the accepted shape extracted from a concrete token. -/
theorem validateTokenFormat_pure_pattern_witness :
    ∃ ds tail : List Char,
      ("123456789:ABCDEFGHIJabcdefghij" : String).data = ds ++ ':' :: tail ∧
      ds ≠ [] ∧ (∀ c ∈ ds, c.isDigit = true) ∧ 20 ≤ tail.length ∧
      (∀ c ∈ tail, tokenTailChar c = true) :=
  (validateTokenFormat_pure_pattern "123456789:ABCDEFGHIJabcdefghij").1.mp
    (by decide)

/-- Counterexample to C6 as stated: when a step fails with error `E1` and the
compensating bot send itself fails with `E2`, the caller receives `E2`, not
the original error `E1`. -/
theorem processInquiry_comp_failure :
    (processCustomerInquiry ⟨"2024-01-01T00:00:00.000Z", Except.error "E1",
        Except.ok (), Except.ok (), Except.ok (), Except.error "E2"⟩
      "Alice" "alice@example.com" "hello").2 = Except.error "E2" ∧
    (Except.error "E2" : Except String String) ≠ Except.error "E1" := by
  refine ⟨rfl, fun h => ?_⟩
  injection h with h2
  exact absurd h2 (by decide)

/-- C6 amended: if any step of processCustomerInquiry fails, the hub attempts
exactly one compensating bot message containing the requester name, email and
the error text; completed steps stay in the trace (no rollback); when the
compensating send returns, the original error is re-raised unchanged, and
when the compensating send itself fails, the compensation error propagates
instead of the original one. -/
theorem processInquiry_compensation (env : HubEnv) (name email message : String) :
    (env.sheetRes = .ok () → env.gmailRes = .ok () → env.slackRes = .ok () →
      env.telegramRes = .ok () →
      processCustomerInquiry env name email message =
        ([HubAction.sheetAppend [env.now, name, email, message],
          HubAction.mailSend email,
          HubAction.slackPost "New customer inquiry received!",
          HubAction.telegramPost (telegramInquiryText name email message)],
          .ok "Inquiry processed successfully")) ∧
    (∀ e, env.sheetRes = .error e →
      processCustomerInquiry env name email message =
        ([HubAction.sheetAppend [env.now, name, email, message],
          HubAction.telegramPost (compMessage name email e)],
          compResult env e)) ∧
    (∀ e, env.sheetRes = .ok () → env.gmailRes = .error e →
      processCustomerInquiry env name email message =
        ([HubAction.sheetAppend [env.now, name, email, message],
          HubAction.mailSend email,
          HubAction.telegramPost (compMessage name email e)],
          compResult env e)) ∧
    (∀ e, env.sheetRes = .ok () → env.gmailRes = .ok () →
      env.slackRes = .error e →
      processCustomerInquiry env name email message =
        ([HubAction.sheetAppend [env.now, name, email, message],
          HubAction.mailSend email,
          HubAction.slackPost "New customer inquiry received!",
          HubAction.telegramPost (compMessage name email e)],
          compResult env e)) ∧
    (∀ e, env.sheetRes = .ok () → env.gmailRes = .ok () →
      env.slackRes = .ok () → env.telegramRes = .error e →
      processCustomerInquiry env name email message =
        ([HubAction.sheetAppend [env.now, name, email, message],
          HubAction.mailSend email,
          HubAction.slackPost "New customer inquiry received!",
          HubAction.telegramPost (telegramInquiryText name email message),
          HubAction.telegramPost (compMessage name email e)],
          compResult env e)) ∧
    (∀ e, env.compRes = .ok () → compResult env e = .error e) ∧
    (∀ e e2, env.compRes = .error e2 → compResult env e = .error e2) := by
  refine ⟨?_, ?_, ?_, ?_, ?_, ?_, ?_⟩
  · intro h1 h2 h3 h4
    simp [processCustomerInquiry, h1, h2, h3, h4]
  · intro e h1
    simp [processCustomerInquiry, hubCatch, h1]
  · intro e h1 h2
    simp [processCustomerInquiry, hubCatch, h1, h2]
  · intro e h1 h2 h3
    simp [processCustomerInquiry, hubCatch, h1, h2, h3]
  · intro e h1 h2 h3 h4
    simp [processCustomerInquiry, hubCatch, h1, h2, h3, h4]
  · intro e h
    simp [compResult, h]
  · intro e e2 h
    simp [compResult, h]

/-- Witness for C6: a failure on the mail step with a succeeding compensating
send — one compensation, original error re-raised, sheet row kept. -/
theorem processInquiry_compensation_witness :
    processCustomerInquiry ⟨"ts", Except.ok (), Except.error "SMTP down",
        Except.ok (), Except.ok (), Except.ok ()⟩ "Bob" "b@x.com" "msg" =
      ([HubAction.sheetAppend ["ts", "Bob", "b@x.com", "msg"],
        HubAction.mailSend "b@x.com",
        HubAction.telegramPost (compMessage "Bob" "b@x.com" "SMTP down")],
        compResult ⟨"ts", Except.ok (), Except.error "SMTP down",
          Except.ok (), Except.ok (), Except.ok ()⟩ "SMTP down") :=
  (processInquiry_compensation ⟨"ts", Except.ok (), Except.error "SMTP down",
      Except.ok (), Except.ok (), Except.ok ()⟩ "Bob" "b@x.com" "msg").2.2.1
    "SMTP down" rfl rfl

/-- C2: the column-letter encoding is bijective base-26 over 1-based indices:
encode(1)="A", encode(26)="Z", encode(27)="AA", encode(702)="ZZ",
encode(703)="AAA", and the encoding is strictly monotonic in the index with
respect to length-then-lexicographic order on the output strings. -/
theorem getColumnName_bijective_base26 :
    getColumnName 1 = "A" ∧ getColumnName 26 = "Z" ∧ getColumnName 27 = "AA" ∧
    getColumnName 702 = "ZZ" ∧ getColumnName 703 = "AAA" ∧
    ∀ i j : Nat, 1 ≤ i → i < j →
      lenLexLtB (getColumnName i).data (getColumnName j).data = true := by
  refine ⟨by decide, by decide, by decide, by decide, by decide, ?_⟩
  intro i j hi hij
  show lenLexLtB (colChars (max 1 i)) (colChars (max 1 j)) = true
  rw [Nat.max_eq_right hi, Nat.max_eq_right (by omega : 1 ≤ j)]
  exact colChars_strictMono j i hi hij

/-- Witness for C2: the monotonicity clause applied at indices 5 and 30. -/
theorem getColumnName_bijective_base26_witness :
    lenLexLtB (getColumnName 5).data (getColumnName 30).data = true :=
  getColumnName_bijective_base26.2.2.2.2.2 5 30 (by decide) (by decide)

end CollabApiHub
